import Mathlib

namespace Abvio

/-- Python runtime values as they occur in the parsed YAML input of abvio:
None, booleans, ints, floats (modelled as rationals), strings, lists and
dicts (association lists of key-value pairs; real Python dicts have unique
keys, which concrete inputs in this file respect). -/
inductive PyVal where
  | none
  | bool (b : Bool)
  | int (z : Int)
  | float (q : ℚ)
  | str (s : String)
  | list (xs : List PyVal)
  | dict (entries : List (PyVal × PyVal))

/-- Python `isinstance(x, (int, float))`; `bool` is a subtype of `int` in Python. -/
def isNumB : PyVal → Bool
  | .int _ => true
  | .float _ => true
  | .bool _ => true
  | _ => false

/-- Python `isinstance(x, list)`. -/
def isListB : PyVal → Bool
  | .list _ => true
  | _ => false

/-- Python `isinstance(x, dict)`. -/
def isDictB : PyVal → Bool
  | .dict _ => true
  | _ => false

/-- Python `isinstance(x, str)`. -/
def isStrB : PyVal → Bool
  | .str _ => true
  | _ => false

/-- Python `isinstance(x, int)`; `bool` is a subtype of `int`. -/
def isIntB : PyVal → Bool
  | .int _ => true
  | .bool _ => true
  | _ => false

/-- Python truthiness of a value (`bool(x)`). -/
def pyTruthy : PyVal → Bool
  | .none => false
  | .bool b => b
  | .int z => z != 0
  | .float q => q != 0
  | .str s => s != ""
  | .list xs => !xs.isEmpty
  | .dict es => !es.isEmpty

/-- Does a Python dict key equal the string `s`?  Only `str` keys can compare
equal to a string in Python. -/
def keyEqStr (k : PyVal) (s : String) : Bool :=
  match k with
  | .str t => t == s
  | _ => false

/-- Lookup of a string key in a dict body (`d[s]` success case / `s in d`). -/
def lookupStrKey (es : List (PyVal × PyVal)) (s : String) : Option PyVal :=
  (es.find? (fun p => keyEqStr p.1 s)).map (·.2)

/-- Does `needle` occur as a contiguous run inside `hay`? -/
def charsInfix (needle hay : List Char) : Bool :=
  match hay with
  | [] => needle.isEmpty
  | _ :: t => needle.isPrefixOf hay || charsInfix needle t

/-- Python membership test `s in v` for a string `s`: key membership for dicts,
element membership for lists, substring test for strings, `TypeError` for
non-iterables. -/
def pyContains (v : PyVal) (s : String) : Except String Bool :=
  match v with
  | .dict es => .ok (es.any (fun p => keyEqStr p.1 s))
  | .list xs => .ok (xs.any (fun x => keyEqStr x s))
  | .str t => .ok (charsInfix s.data t.data)
  | _ => .error "TypeError: argument of type is not iterable"

/-- Python subscript `v[s]` with a string key: dict lookup (`KeyError` when
absent), `TypeError` for lists/strings/others. -/
def pySubscript (v : PyVal) (s : String) : Except String PyVal :=
  match v with
  | .dict es =>
    match lookupStrKey es s with
    | some x => .ok x
    | Option.none => .error "KeyError"
  | .str _ => .error "TypeError: string indices must be integers"
  | .list _ => .error "TypeError: list indices must be integers"
  | _ => .error "TypeError: object is not subscriptable"

/-- Python `v.get(s)` on a dict (missing key gives `None`); `AttributeError`
on non-dicts. -/
def pyGetOpt (v : PyVal) (s : String) : Except String PyVal :=
  match v with
  | .dict es => .ok ((lookupStrKey es s).getD .none)
  | _ => .error "AttributeError: object has no attribute get"

/- ===== src/abvio/incar.py: property-entry shape classifiers ===== -/

/-- `incar.is_range_dict`: a dict that contains the keys `start`, `stop` and
`value`.  Python evaluates the three `in` tests left to right with
short-circuiting `and`; `in` on a non-iterable raises `TypeError`. -/
def is_range_dict (v : PyVal) : Except String Bool := do
  let a ← pyContains v "start"
  if !a then pure false
  else
    let b ← pyContains v "stop"
    if !b then pure false
    else pyContains v "value"

/-- The list comprehension `[is_range_dict(rd) for rd in l]` followed by
`all(...)`: every element is evaluated in order (the first `TypeError`
propagates) and the booleans are conjoined. -/
def rangeDictAll : List PyVal → Except String Bool
  | [] => .ok true
  | e :: rest => do
    let b ← is_range_dict e
    let bs ← rangeDictAll rest
    pure (b && bs)

/-- `incar.is_range_list`: a list all of whose elements are range dicts.  The
list comprehension evaluates `is_range_dict` on every element (so a
`TypeError` from any element propagates); a non-list input returns `False`. -/
def is_range_list (v : PyVal) : Except String Bool :=
  match v with
  | .list l => rangeDictAll l
  | _ => .ok false

/-- `incar.is_species_dict`: a dict whose values are all numeric-or-list and
whose keys are all strings. -/
def is_species_dict (v : PyVal) : Bool :=
  match v with
  | .dict es =>
    es.all (fun p => isNumB p.2 || isListB p.2) && es.all (fun p => isStrB p.1)
  | _ => false

/-- `incar.is_index_dict`: a dict whose values are all numeric-or-list and
whose keys are all integers (Python `bool` counts as `int`). -/
def is_index_dict (v : PyVal) : Bool :=
  match v with
  | .dict es =>
    es.all (fun p => isNumB p.2 || isListB p.2) && es.all (fun p => isIntB p.1)
  | _ => false

/-- Values of a dict body (`d.values()`); `[]` for non-dicts. -/
def dictValues (v : PyVal) : List PyVal :=
  match v with
  | .dict es => es.map (·.2)
  | _ => []

/-- Elements of a list value; `[]` for non-lists. -/
def listItems (v : PyVal) : List PyVal :=
  match v with
  | .list l => l
  | _ => []

/-- The comprehension `[rd["value"] for rd in l]`: subscripts are evaluated
in order and the first `KeyError`/`TypeError` propagates. -/
def subscriptValues : List PyVal → Except String (List PyVal)
  | [] => .ok []
  | e :: rest => do
    let x ← pySubscript e "value"
    let xs ← subscriptValues rest
    pure (x :: xs)

/-- `incar.is_collinear`: decides whether a magmom entry is collinear
(scalar-valued, `True`) or non-collinear (list-valued, `False`).  For an
index/species dict it inspects the dict values; otherwise, if the entry is a
range list, it inspects the `value` field of each element (the source evaluates the
same subscripts in up to two comprehensions; both give the first subscript
error, so they are extracted once here); anything else raises. -/
def is_collinear (v : PyVal) : Except String Bool :=
  if is_index_dict v || is_species_dict v then
    let vals := dictValues v
    if vals.all isNumB then .ok true
    else if vals.all isListB then .ok false
    else .error "Magnetic moments is improperly formatted"
  else do
    let rl ← is_range_list v
    if rl then
      let vals ← subscriptValues (listItems v)
      if vals.all isNumB then .ok true
      else if vals.all isListB then .ok false
      else .error "Magnetic moments is improperly formatted"
    else .error "Magnetic moments is improperly formatted"

/-- `incar.is_valid_magmom_entry`: the entry matches at least one of the
three shapes. -/
def is_valid_magmom_entry (v : PyVal) : Except String Bool := do
  let rl ← is_range_list v
  pure (is_index_dict v || is_species_dict v || rl)

/- ===== src/abvio/structure.py: species expansion ===== -/

/-- Python int value of an int-like (`bool` is `int`); only called on values
that passed an `isinstance(x, int)` check. -/
def pyIntValue : PyVal → Int
  | .int z => z
  | .bool b => if b then 1 else 0
  | _ => 0

/-- First validation loop of `structure.format_species`: every element must
be a dict (`.keys()` on anything else raises `AttributeError`), all keys must
be strings and all values integers. -/
def validateSpeciesDicts : List PyVal → Except String Unit
  | [] => .ok ()
  | d :: rest =>
    match d with
    | .dict es =>
      if !(es.all (fun p => isStrB p.1)) then
        .error "Keys in species dictionary must be strings"
      else if !(es.all (fun p => isIntB p.2)) then
        .error "Values in species dictionary must be integers"
      else validateSpeciesDicts rest
    | _ => .error "AttributeError: object has no attribute keys"

/-- Second loop of `structure.format_species`: take the first item of each
dict (`next(iter(d.items()))`, `StopIteration` on an empty dict) and extend
the output with `count` copies of the symbol (`[sym] * count`, which is empty
for a negative count). -/
def expandSpeciesDicts : List PyVal → Except String (List PyVal)
  | [] => .ok []
  | d :: rest =>
    match d with
    | .dict [] => .error "StopIteration"
    | .dict ((k, v) :: _) => do
      let tail ← expandSpeciesDicts rest
      pure (List.replicate (pyIntValue v).toNat k ++ tail)
    | _ => .error "AttributeError: object has no attribute items"

/-- `structure.format_species`: a non-list input is fatal; an empty list hits
`species[0]` and raises `IndexError`; a list headed by a dict is validated and
expanded; a list headed by a string is returned unchanged; anything else is
fatal. -/
def format_species (species : PyVal) : Except String (List PyVal) :=
  match species with
  | .list [] => .error "list index out of range"
  | .list (x :: rest) =>
    if isDictB x then do
      validateSpeciesDicts (x :: rest)
      expandSpeciesDicts (x :: rest)
    else if isStrB x then .ok (x :: rest)
    else .error "Species must be a list of dictionaries or a list of strings"
  | _ => .error "Species must be a list"

/- ===== src/abvio/structure.py and src/abvio/validate.py: MP codes ===== -/

/-- Python `str.isdigit()`: non-empty and all characters are digits. -/
def pyIsDigit (s : String) : Bool :=
  !(s == "") && s.data.all Char.isDigit

/-- Python `str.startswith(pre)`, at the character-list level. -/
def pyStartsWith (s pre : String) : Bool :=
  pre.data.isPrefixOf s.data

/-- `ExternalStructure.check_code` (structure.py): the code must start with
`mp-` and the remainder must be pure digits, otherwise the field validator
raises at construction. -/
def check_code (code : String) : Except String String :=
  if !(pyStartsWith code "mp-") || !(pyIsDigit (code.drop 3)) then
    .error "Invalid Materials Project code"
  else .ok code

/-- `validate.is_valid_mp_code`: accepts any string starting with `mp-`
(digits after the prefix are not required here) or a pure-digit string. -/
def is_valid_mp_code (code : String) : Bool :=
  pyStartsWith code "mp-" || pyIsDigit code

/- ===== src/abvio/structure.py: ExternalStructure ===== -/

/-- Truthiness of an optional string field (`None` and the empty string are
falsy in Python). -/
def truthyStrOpt : Option String → Bool
  | Option.none => false
  | some s => !(s == "")

/-- The raw keyword values handed to the
`mode="before"` model validator of `ExternalStructure`: absent fields and fields passed as
`None`/empty behave identically under truthiness. -/
structure ExternalInput where
  mode : Option String := Option.none
  file : Option String := Option.none
  string : Option String := Option.none
  code : Option String := Option.none

/-- `ExternalStructure.check_external`: raises iff no supplied raw value is
truthy (`if not any(values.values())`).  The commented-out exclusivity check
of the source is deliberately absent.  Note the `mode` key participates in
the `any`. -/
def check_external (values : ExternalInput) : Except String ExternalInput :=
  if truthyStrOpt values.mode || truthyStrOpt values.file ||
      truthyStrOpt values.string || truthyStrOpt values.code then
    .ok values
  else .error "Must provide either file, string, or code"

/-- A validated `ExternalStructure` model (mode is always `external`;
`file`, `string` and `code` default to `None`). -/
structure ExternalStructure where
  file : Option String := Option.none
  string : Option String := Option.none
  code : Option String := Option.none

/-- Which external collaborator the `.structure` property dispatches to.
The file/string codecs and the network lookup are external collaborators
(spec section 6), abstracted here as source descriptors. -/
inductive ExternalSource where
  | fromFile (path : String)
  | fromString (poscar : String)
  | fromCode (code : String)

/-- `ExternalStructure.structure` (the `@property`): raises the ambiguity
error only when all three of `file`, `string` and `code` are truthy;
otherwise dispatches to the first truthy source in the order
file, string, code; raises the missing-source error when none is truthy. -/
def ExternalStructure.structureProp (m : ExternalStructure) : Except String ExternalSource :=
  if truthyStrOpt m.file && truthyStrOpt m.string && truthyStrOpt m.code then
    .error "Must provide only one of file, string, or code"
  else if truthyStrOpt m.file then .ok (.fromFile (m.file.getD ""))
  else if truthyStrOpt m.string then .ok (.fromString (m.string.getD ""))
  else if truthyStrOpt m.code then .ok (.fromCode (m.code.getD ""))
  else .error "Must provide either file, string, or code"

/- ===== the crystal-geometry collaborator (spec section 6) ===== -/

/-- A site of a structure: its species label and its mutable per-site property
store.  Modelled from the spec: the crystal geometry library (pymatgen) is an
external collaborator; only the per-site property get/set and the species
label that the core reads are represented. -/
structure Site where
  species_string : String
  properties : List (String × PyVal)

/-- Set (insert or overwrite, keeping position) a key in a string-keyed dict. -/
def dictSetS (d : List (String × PyVal)) (k : String) (v : PyVal) : List (String × PyVal) :=
  if d.any (fun p => p.1 == k) then
    d.map (fun p => if p.1 == k then (k, v) else p)
  else d ++ [(k, v)]

/-- Read a key from a string-keyed dict (`d.get(k)`). -/
def dictGetS (d : List (String × PyVal)) (k : String) : Option PyVal :=
  (d.find? (fun p => p.1 == k)).map (·.2)

/-- Remove a key from a string-keyed dict (`d.pop(k)` discarding the value). -/
def dictPopS (d : List (String × PyVal)) (k : String) : List (String × PyVal) :=
  d.filter (fun p => !(p.1 == k))

/-- A resolved structure: its ordered list of sites.  Modelled from the spec:
the geometry collaborator constructs one site per (species, coordinate)
pair. -/
structure PStructure where
  sites : List Site

/-- Replace the `n`-th element of a list using `f` (no-op when out of range). -/
def modifyNth {α : Type} (l : List α) (n : Nat) (f : α → α) : List α :=
  match l, n with
  | [], _ => []
  | x :: rest, 0 => f x :: rest
  | x :: rest, n + 1 => x :: modifyNth rest n f

/-- Set a property on one site. -/
def Site.setProp (s : Site) (name : String) (value : PyVal) : Site :=
  { s with properties := dictSetS s.properties name value }

/- ===== src/abvio/incar.py: PropertyAssigner ===== -/

/-- `incar.assign_site_property_by_species`: sets the property on every site
whose species label equals `species`; mutates and returns the structure. -/
def assign_site_property_by_species (st : PStructure) (species : String)
    (property_name : String) (property_value : PyVal) : PStructure :=
  ⟨st.sites.map (fun s =>
    if s.species_string == species then s.setProp property_name property_value else s)⟩

/-- Normalize a Python list index (negative indices count from the end);
`IndexError` when out of range. -/
def pyIndex (n : Nat) (i : Int) : Except String Nat :=
  let j := if i < 0 then i + n else i
  if 0 ≤ j ∧ j < n then .ok j.toNat else .error "IndexError: list index out of range"

/-- `incar.assign_site_property_by_index`: sets the property on the site at
`index` (`sites[index]` raises `IndexError` when out of range). -/
def assign_site_property_by_index (st : PStructure) (index : Int)
    (property_name : String) (property_value : PyVal) : Except String PStructure := do
  let i ← pyIndex st.sites.length index
  pure ⟨modifyNth st.sites i (fun s => s.setProp property_name property_value)⟩

/-- The indices selected by a Python `slice(start, stop, step)` on a list of
length `n`, following `PySlice_AdjustIndices`: step `0` is a `ValueError`;
bounds are clamped, negative bounds count from the end. -/
def sliceIndices (n : Nat) (start stop step : Option Int) : Except String (List Nat) :=
  let stp := step.getD 1
  if stp = 0 then .error "ValueError: slice step cannot be zero"
  else
    let N : Int := n
    let lower : Int := if 0 < stp then 0 else -1
    let upper : Int := if 0 < stp then N else N - 1
    let a : Int :=
      match start with
      | Option.none => if 0 < stp then lower else upper
      | some s => if s < 0 then max (s + N) lower else min s upper
    let b : Int :=
      match stop with
      | Option.none => if 0 < stp then upper else lower
      | some s => if s < 0 then max (s + N) lower else min s upper
    let len : Nat :=
      if 0 < stp then (if a < b then ((b - a - 1) / stp + 1).toNat else 0)
      else (if b < a then ((a - b - 1) / (-stp) + 1).toNat else 0)
    .ok ((List.range len).map (fun k => (a + stp * k).toNat))

/-- A Python `slice` object as built in `format_magnetic_moments`: the three
raw values (each possibly `None`). -/
structure PySlice where
  start : PyVal := .none
  stop : PyVal := .none
  step : PyVal := .none

/-- A slice index must be an integer or `None` (`TypeError` otherwise),
enforced when the slice is applied, not when it is built. -/
def asSliceIdx : PyVal → Except String (Option Int)
  | .none => .ok Option.none
  | .int z => .ok (some z)
  | .bool b => .ok (some (if b then 1 else 0))
  | _ => .error "TypeError: slice indices must be integers or None"

/-- `incar.assign_site_property_by_range`: sets the property on every site
selected by the slice (standard clamping, no out-of-bounds error). -/
def assign_site_property_by_range (st : PStructure) (range : PySlice)
    (property_name : String) (property_value : PyVal) : Except String PStructure := do
  let a ← asSliceIdx range.start
  let b ← asSliceIdx range.stop
  let c ← asSliceIdx range.step
  let idxs ← sliceIndices st.sites.length a b c
  pure ⟨idxs.foldl (fun sites i =>
    modifyNth sites i (fun s => s.setProp property_name property_value)) st.sites⟩

/-- `incar.site_properties_from_structure`: per-site property values in site
order, substituting `default` where unset. -/
def site_properties_from_structure (st : PStructure) (property_name : String)
    (default : PyVal) : List PyVal :=
  st.sites.map (fun s => (dictGetS s.properties property_name).getD default)

/-- Integer key of an index-dict entry (only called after `is_index_dict`). -/
def pyIndexKey : PyVal → Int
  | .int z => z
  | .bool b => if b then 1 else 0
  | _ => 0

/-- String key of a species-dict entry (only called after `is_species_dict`). -/
def pyStrKey : PyVal → String
  | .str s => s
  | _ => ""

/-- Entries of a dict value (`d.items()`); `[]` for non-dicts. -/
def dictEntries (v : PyVal) : List (PyVal × PyVal) :=
  match v with
  | .dict es => es
  | _ => []

/-- One iteration of the index-dict loop of `format_magnetic_moments`. -/
def indexStep (acc : PStructure) (p : PyVal × PyVal) : Except String PStructure :=
  assign_site_property_by_index acc (pyIndexKey p.1) "magmom" p.2

/-- One iteration of the species-dict loop of `format_magnetic_moments`. -/
def speciesStep (acc : PStructure) (p : PyVal × PyVal) : PStructure :=
  assign_site_property_by_species acc (pyStrKey p.1) "magmom" p.2

/-- One iteration of the range-list loop of `format_magnetic_moments`:
extract `start`, `stop`, the optional `step` and `value`, build the slice
and assign. -/
def rangeStep (acc : PStructure) (rd : PyVal) : Except String PStructure := do
  let startv ← pySubscript rd "start"
  let stopv ← pySubscript rd "stop"
  let stepv ← pyGetOpt rd "step"
  let valuev ← pySubscript rd "value"
  assign_site_property_by_range acc ⟨startv, stopv, stepv⟩ "magmom" valuev

/-- `incar.format_magnetic_moments`: applies the shape-appropriate assignment
calls for the entry (the source tests all three shapes in sequence, not
`elif`; a raised exception in any stage propagates) and reads back the full
per-site list with the `missing` default. -/
def format_magnetic_moments (magmom_entry : PyVal) (st : PStructure)
    (missing : PyVal) : Except String (List PyVal) :=
  match (if is_index_dict magmom_entry then
      (dictEntries magmom_entry).foldlM indexStep st
    else .ok st) with
  | .error e => .error e
  | .ok st1 =>
    let st2 :=
      if is_species_dict magmom_entry then
        (dictEntries magmom_entry).foldl speciesStep st1
      else st1
    match is_range_list magmom_entry with
    | .error e => .error e
    | .ok rl =>
      match (if rl then (listItems magmom_entry).foldlM rangeStep st2
          else .ok st2) with
      | .error e => .error e
      | .ok st3 => .ok (site_properties_from_structure st3 "magmom" missing)

/-- Uppercase a tag name (`str.upper()` over its characters). -/
def pyUpper (s : String) : String :=
  ⟨s.data.map Char.toUpper⟩

/-- The key-uppercasing dict comprehension at the end of
`format_incar_dict`. -/
def upperKeys (d : List (String × PyVal)) : List (String × PyVal) :=
  d.foldl (fun acc p => dictSetS acc (pyUpper p.1) p.2) []

/-- `incar.format_incar_dict`: when the `magmom` key is present with a truthy
value (`if formatted.get("magmom"):`) it is popped, expanded against the
structure, and re-inserted (at the end) before all keys are uppercased;
values of other keys pass through; a present-but-falsy entry is left alone. -/
def format_incar_dict (incar_dict : List (String × PyVal)) (st : PStructure)
    (missing : PyVal) : Except String (List (String × PyVal)) :=
  match dictGetS incar_dict "magmom" with
  | some v =>
    if pyTruthy v then
      match format_magnetic_moments v st missing with
      | .error e => .error e
      | .ok magmoms =>
        .ok (upperKeys
          (dictSetS (dictPopS incar_dict "magmom") "magmom" (.list magmoms)))
    else .ok (upperKeys incar_dict)
  | Option.none => .ok (upperKeys incar_dict)

/- ===== src/abvio/structure.py: manual structures ===== -/

/-- A lattice as normalized by the manual-structure validator.  The geometric
content (3x3 matrix) is carried opaquely; the core only threads it through. -/
structure Lattice where
  matrix : List (List ℚ)

/-- The lattice argument accepted by `structure_from_lattice`: an array, an
already-built `Lattice`, or anything else (rejected). -/
inductive LatticeArg where
  | arr (m : List (List ℚ))
  | lat (l : Lattice)
  | other

/-- Build a structure from a lattice, species list and coordinates.
Modelled from the spec (section 6): the geometry collaborator produces one
site per (species, coordinate) pair, in order, with an empty property store. -/
def mkStructure (_lattice : Lattice) (species : List String)
    (coords : List (ℚ × ℚ × ℚ)) : PStructure :=
  ⟨(species.zip coords).map (fun p => { species_string := p.1, properties := [] })⟩

/-- `structure.structure_from_lattice`: normalizes the lattice argument,
raises when species and coordinates differ in length, and otherwise hands
off to the geometry collaborator. -/
def structure_from_lattice (lattice : LatticeArg) (species : List String)
    (coords : List (ℚ × ℚ × ℚ)) : Except String PStructure :=
  let lattice' :=
    match lattice with
    | .arr m => some ⟨m⟩
    | .lat l => some l
    | .other => Option.none
  match lattice' with
  | Option.none => .error "Lattice must be a Lattice object or array"
  | some l =>
    if coords.length ≠ species.length then
      .error "Number of species and coordinates must be the same"
    else .ok (mkStructure l species coords)

/-- A validated `ManualStructure` model: the lattice has been normalized and
the species list has been expanded by the `format_species` field validator. -/
structure ManualStructure where
  lattice : Lattice
  coords : List (ℚ × ℚ × ℚ)
  species : List String

/-- `ManualStructure.structure` (the `@property`): builds the structure from
the validated fields via `structure_from_lattice`. -/
def ManualStructure.structureProp (m : ManualStructure) : Except String PStructure :=
  structure_from_lattice (.lat m.lattice) m.species m.coords

/- ===== src/abvio/kpoints.py ===== -/

/-- Python `str.lower()` over the characters. -/
def pyLower (s : String) : String :=
  ⟨s.data.map Char.toLower⟩

/-- `BaseKpoints.check_mode` (also `BaseStructure.check_mode` works this
way): case-insensitive prefix normalization of the mode tag; unknown tags
are fatal. -/
def check_mode (mode : String) : Except String String :=
  if pyStartsWith (pyLower mode) "g" then .ok "gamma"
  else if pyStartsWith (pyLower mode) "m" then .ok "monkhorst"
  else if pyLower mode == "surface" then .ok "surface"
  else if pyStartsWith (pyLower mode) "line" then .ok "line"
  else if pyLower mode == "autoline" then .ok "autoline"
  else .error "Invalid mode"

/-- The spacing value as seen by the shared `check_spacing` validator after
pydantic type validation: a scalar or an iterable of numbers. -/
inductive SpacingVal where
  | num (q : ℚ)
  | arr (l : List ℚ)

/-- `BaseKpoints.check_spacing`: a negative scalar is fatal; an iterable must
have exactly 3 entries, all non-negative. -/
def check_spacing (spacing : SpacingVal) : Except String SpacingVal :=
  match spacing with
  | .num q =>
    if q < 0 then .error "Spacing must be a non-negative integer" else .ok (.num q)
  | .arr l =>
    if l.length ≠ 3 then .error "Spacing must have 3 elements"
    else if l.any (fun s => s < 0) then
      .error "Spacings must be all non-negative integer"
    else .ok (.arr l)

/-- Pydantic lax coercion to `str`: only actual strings are accepted (the
tests show `mode=9` is rejected). -/
def pyStr : PyVal → Except String String
  | .str s => .ok s
  | _ => .error "Input should be a valid string"

/-- Pydantic lax coercion to `int`: ints pass, integral floats are truncated,
bools and fractional floats are rejected.  (Numeric-string coercion is not
modelled; no input in this development uses it.) -/
def coerceInt : PyVal → Except String Int
  | .int z => .ok z
  | .float q => if q.den = 1 then .ok q.num else .error "Input should be a valid integer"
  | _ => .error "Input should be a valid integer"

/-- Pydantic lax coercion to `float` (modelled over the rationals): ints and
floats pass, bools are rejected. -/
def coerceFloat : PyVal → Except String ℚ
  | .int z => .ok z
  | .float q => .ok q
  | _ => .error "Input should be a valid number"

/-- Pydantic validation of the `IntArray3D = Tuple[int, int, int]` annotation
used by the Gamma/Monkhorst `spacing` and `shift` fields: a list or tuple of
exactly three int-coercible entries.  A bare scalar is not a valid tuple. -/
def coerceInt3 (v : PyVal) : Except String (Int × Int × Int) :=
  match v with
  | .list [a, b, c] => do
    let x ← coerceInt a
    let y ← coerceInt b
    let z ← coerceInt c
    .ok (x, y, z)
  | .list _ => .error "Tuple should have 3 items"
  | _ => .error "Input should be a valid tuple"

/-- Pydantic validation of the `BaseKpoints.spacing` union
`int | float | IntArray3D | IterableNumeric`: a scalar number stays scalar,
a list of numbers becomes an iterable value. -/
def coerceSpacingUnion (v : PyVal) : Except String SpacingVal :=
  match v with
  | .int z => .ok (.num z)
  | .float q => .ok (.num q)
  | .list xs => do
    let qs ← xs.mapM coerceFloat
    .ok (.arr qs)
  | _ => .error "Input should be a valid number or iterable of numbers"

/-- Pydantic validation of a `Matrix3D` row (`Tuple[Number, Number, Number]`). -/
def coerceNum3 (v : PyVal) : Except String (ℚ × ℚ × ℚ) :=
  match v with
  | .list [a, b, c] => do
    let x ← coerceFloat a
    let y ← coerceFloat b
    let z ← coerceFloat c
    .ok (x, y, z)
  | .list _ => .error "Tuple should have 3 items"
  | _ => .error "Input should be a valid tuple"

/-- The raw kpoints input section (pydantic ignores unknown keys; each known
field is either absent or carries a raw value). -/
structure KpDict where
  mode : Option PyVal := Option.none
  spacing : Option PyVal := Option.none
  shift : Option PyVal := Option.none
  paths : Option PyVal := Option.none
  labels : Option PyVal := Option.none

/-- A validated `BaseKpoints` model. -/
structure BaseKpoints where
  mode : String
  spacing : SpacingVal

/-- `BaseKpoints.validate`: `mode` must be a string and normalize; `spacing`
must fit the union annotation and pass `check_spacing`. -/
def BaseKpoints.validate (d : KpDict) : Except String BaseKpoints := do
  let mode ←
    match d.mode with
    | Option.none => .error "Field required: mode"
    | some v => do
      let s ← pyStr v
      check_mode s
  let spacing ←
    match d.spacing with
    | Option.none => .error "Field required: spacing"
    | some v => do
      let sv ← coerceSpacingUnion v
      check_spacing sv
  .ok { mode := mode, spacing := spacing }

/-- The five validated k-points models (the class registry of the source,
keyed by the class `mode` attribute). -/
inductive KpModel where
  | gamma (spacing : Int × Int × Int) (shift : Int × Int × Int)
  | monkhorst (spacing : Int × Int × Int) (shift : Int × Int × Int)
  | surface (spacing : ℚ)
  | line (spacing : Int) (paths : List (ℚ × ℚ × ℚ)) (labels : List String)
  | autoline (spacing : Int)

/-- The class `mode` attribute of a validated model (used by
`requires_structure`).  The dispatch in `kpoints_model_from_dictionary`
guarantees the stored mode string and the class agree. -/
def KpModel.mode : KpModel → String
  | .gamma _ _ => "gamma"
  | .monkhorst _ _ => "monkhorst"
  | .surface _ => "surface"
  | .line _ _ _ => "line"
  | .autoline _ => "autoline"

/-- `BaseKpoints.requires_structure`: `self.mode in {"surface", "autoline"}`. -/
def KpModel.requires_structure (m : KpModel) : Bool :=
  m.mode == "surface" || m.mode == "autoline"

/-- Validate a Gamma/Monkhorst `spacing` field: the `IntArray3D` annotation
first, then the inherited `check_spacing` validator on the coerced triple. -/
def validateGridSpacing (v : PyVal) : Except String (Int × Int × Int) := do
  let t ← coerceInt3 v
  let _ ← check_spacing (.arr [(t.1 : ℚ), (t.2.1 : ℚ), (t.2.2 : ℚ)])
  .ok t

/-- `GammaKpoints.validate`: `mode` defaults to `"gamma"` (validators do not
run on defaults), `spacing` is a non-negative int triple, `shift` defaults to
`[0, 0, 0]`. -/
def GammaKpoints.validate (d : KpDict) : Except String KpModel := do
  let _ ←
    match d.mode with
    | Option.none => .ok "gamma"
    | some v => do
      let s ← pyStr v
      check_mode s
  let spacing ←
    match d.spacing with
    | Option.none => .error "Field required: spacing"
    | some v => validateGridSpacing v
  let shift ←
    match d.shift with
    | Option.none => .ok ((0 : Int), (0 : Int), (0 : Int))
    | some v => coerceInt3 v
  .ok (KpModel.gamma spacing shift)

/-- `MonkhorstKpoints.validate`: identical shape to the Gamma model. -/
def MonkhorstKpoints.validate (d : KpDict) : Except String KpModel := do
  let _ ←
    match d.mode with
    | Option.none => .ok "monkhorst"
    | some v => do
      let s ← pyStr v
      check_mode s
  let spacing ←
    match d.spacing with
    | Option.none => .error "Field required: spacing"
    | some v => validateGridSpacing v
  let shift ←
    match d.shift with
    | Option.none => .ok ((0 : Int), (0 : Int), (0 : Int))
    | some v => coerceInt3 v
  .ok (KpModel.monkhorst spacing shift)

/-- `SurfaceKpoints.validate`: `spacing` is a float scalar, checked by the
inherited `check_spacing`. -/
def SurfaceKpoints.validate (d : KpDict) : Except String KpModel := do
  let _ ←
    match d.mode with
    | Option.none => .ok "surface"
    | some v => do
      let s ← pyStr v
      check_mode s
  let spacing ←
    match d.spacing with
    | Option.none => .error "Field required: spacing"
    | some v => do
      let q ← coerceFloat v
      let _ ← check_spacing (.num q)
      .ok q
  .ok (KpModel.surface spacing)

/-- `LineKpoints.check_paths`: at least two path points (each row already has
exactly three coordinates by the `Matrix3D` typing, so the per-row length
check of the source cannot fire here). -/
def check_paths (paths : List (ℚ × ℚ × ℚ)) : Except String (List (ℚ × ℚ × ℚ)) :=
  if paths.length < 2 then .error "Invalid paths" else .ok paths

/-- `LineKpoints.check_labels`: at least two labels (each already a string by
the `List[str]` typing). -/
def check_labels (labels : List String) : Except String (List String) :=
  if labels.length < 2 then .error "Number of labels must be greater than 1"
  else .ok labels

/-- `LineKpoints.validate`. -/
def LineKpoints.validate (d : KpDict) : Except String KpModel := do
  let _ ←
    match d.mode with
    | Option.none => .ok "line"
    | some v => do
      let s ← pyStr v
      check_mode s
  let spacing ←
    match d.spacing with
    | Option.none => .error "Field required: spacing"
    | some v => do
      let z ← coerceInt v
      let _ ← check_spacing (.num z)
      .ok z
  let paths ←
    match d.paths with
    | Option.none => .error "Field required: paths"
    | some v =>
      match v with
      | .list rows => do
        let rs ← rows.mapM coerceNum3
        check_paths rs
      | _ => .error "Input should be a valid list"
  let labels ←
    match d.labels with
    | Option.none => .error "Field required: labels"
    | some v =>
      match v with
      | .list xs => do
        let ls ← xs.mapM pyStr
        check_labels ls
      | _ => .error "Input should be a valid list"
  .ok (KpModel.line spacing paths labels)

/-- `AutoLineKpoints.validate`. -/
def AutoLineKpoints.validate (d : KpDict) : Except String KpModel := do
  let _ ←
    match d.mode with
    | Option.none => .ok "autoline"
    | some v => do
      let s ← pyStr v
      check_mode s
  let spacing ←
    match d.spacing with
    | Option.none => .error "Field required: spacing"
    | some v => do
      let z ← coerceInt v
      let _ ← check_spacing (.num z)
      .ok z
  .ok (KpModel.autoline spacing)

/-- The realized sampling description: which pymatgen `Kpoints` constructor
the `kpoints` method of each mode delegates to, with its arguments (the codecs and
the symmetry-path generator are external collaborators, spec section 6). -/
inductive KpointsFile where
  | gammaAutomatic (kpts shift : Int × Int × Int)
  | monkhorstAutomatic (kpts shift : Int × Int × Int)
  | automaticDensity (s : PStructure) (kppa : ℚ)
  | lineMode (divisions : Int) (paths : List (ℚ × ℚ × ℚ)) (labels : List String)
  | automaticLinemode (divisions : Int) (s : PStructure)

/-- Calling `model.kpoints()` with no argument: the surface/autoline methods
require a structure argument (`TypeError` without one); the line realizer
re-checks that paths and labels have matching lengths. -/
def KpModel.kpointsNoArg : KpModel → Except String KpointsFile
  | .gamma sp sh => .ok (.gammaAutomatic sp sh)
  | .monkhorst sp sh => .ok (.monkhorstAutomatic sp sh)
  | .line sp paths labels =>
    if paths.length ≠ labels.length then
      .error "Dimensions of labels and paths do not match"
    else .ok (.lineMode sp paths labels)
  | .surface _ => .error "TypeError: missing required argument structure"
  | .autoline _ => .error "TypeError: missing required argument structure"

/-- Calling `model.kpoints(structure)`: only the surface/autoline methods
accept a structure argument. -/
def KpModel.kpointsWithArg (m : KpModel) (s : PStructure) : Except String KpointsFile :=
  match m with
  | .surface sp => .ok (.automaticDensity s sp)
  | .autoline sp => .ok (.automaticLinemode sp s)
  | _ => .error "TypeError: takes 1 positional argument but 2 were given"

/-- `kpoints.kpoints_model_from_dictionary`: base validation normalizes the
mode, then the matching model class re-validates the same dictionary. -/
def kpoints_model_from_dictionary (d : KpDict) : Except String KpModel := do
  let base ← BaseKpoints.validate d
  match base.mode with
  | "gamma" => GammaKpoints.validate d
  | "monkhorst" => MonkhorstKpoints.validate d
  | "surface" => SurfaceKpoints.validate d
  | "line" => LineKpoints.validate d
  | "autoline" => AutoLineKpoints.validate d
  | _ => .error "AttributeError: NoneType has no attribute validate"

/-- `kpoints.kpoints_from_dictionary`: realizes the validated model, passing
the structure exactly when `requires_structure` holds (fatal when required
but absent; ignored when not required). -/
def kpoints_from_dictionary (d : KpDict) (structure? : Option PStructure) :
    Except String KpointsFile := do
  let m ← kpoints_model_from_dictionary d
  if m.requires_structure then
    match structure? with
    | Option.none => .error "Kpoints model requires a structure"
    | some s => m.kpointsWithArg s
  else m.kpointsNoArg

/-- Did a fallible step succeed? -/
def isOkE {α : Type} : Except String α → Bool
  | .ok _ => true
  | .error _ => false

/-- Spec-side predicate (for comparison with the code): a string of the shape
`mp-<digits>`. -/
def spec_mp_digits (s : String) : Bool :=
  pyStartsWith s "mp-" && pyIsDigit (s.drop 3)

/-- Spec-side predicate (for comparison with the code): all values of the
entry are lists of one common length. -/
def spec_values_equal_length_lists (v : PyVal) : Bool :=
  match dictValues v with
  | [] => true
  | w :: rest =>
    match w with
    | .list l => (w :: rest).all (fun x =>
        match x with
        | .list m => m.length == l.length
        | _ => false)
    | _ => false

/- ===================================================================== -/
/- Theorems                                                              -/
/- ===================================================================== -/

/-- C6 (counterexample): the claim says syntactic validation at construction
accepts pure-digit codes; but the `ExternalStructure.check_code` field
validator rejects the pure-digit code `"123"` even though `"123".isdigit()`
holds (and the standalone `is_valid_mp_code` helper accepts it). -/
theorem check_code_rejects_pure_digits :
    check_code "123" = .error "Invalid Materials Project code"
      ∧ pyIsDigit "123" = true ∧ is_valid_mp_code "123" = true :=
  ⟨rfl, rfl, rfl⟩

/-- C6 (amended): at construction, `check_code` accepts exactly the strings
of shape `mp-<digits>` (pure digits are rejected there), while the
standalone `is_valid_mp_code` helper accepts any string starting with `mp-`
(digits not required after the prefix) or any pure-digit string; both checks
are purely syntactic string predicates (no network resolution). -/
theorem mp_code_validation_characterization (s : String) :
    (isOkE (check_code s) = spec_mp_digits s)
      ∧ (is_valid_mp_code s = (pyStartsWith s "mp-" || pyIsDigit s)) := by
  constructor
  · unfold check_code spec_mp_digits isOkE
    cases h1 : pyStartsWith s "mp-" <;> cases h2 : pyIsDigit (s.drop 3) <;> simp
  · rfl

/-- C6 (witness): the theorem evaluated at `"mp-149"`. -/
theorem mp_code_validation_characterization_witness :
    isOkE (check_code "mp-149") = spec_mp_digits "mp-149"
      ∧ is_valid_mp_code "mp-149" = (pyStartsWith "mp-149" "mp-" || pyIsDigit "mp-149") :=
  mp_code_validation_characterization "mp-149"

/-- C3 (counterexample): the claim says at most one classifier returns true
for any input, but the empty mapping satisfies both the index-map and the
species-map classifier (both `all(...)` checks hold vacuously). -/
theorem empty_dict_classified_both :
    is_index_dict (.dict []) = true ∧ is_species_dict (.dict []) = true :=
  ⟨rfl, rfl⟩

/-- C3 (amended): for every input other than the empty mapping, at most one
of the three property-entry classifiers returns true; index-map and
species-map classification are exclusive because a non-empty dict would need
a key that is both an integer and a string, and a range list must be a list
while the other two shapes must be dicts. -/
theorem classifiers_mutually_exclusive (v : PyVal) (h : v ≠ .dict []) :
    ¬(is_index_dict v = true ∧ is_species_dict v = true)
      ∧ ¬(is_index_dict v = true ∧ is_range_list v = .ok true)
      ∧ ¬(is_species_dict v = true ∧ is_range_list v = .ok true) := by
  refine ⟨?_, ?_, ?_⟩
  · rintro ⟨h1, h2⟩
    cases v with
    | dict es =>
      cases es with
      | nil => exact h rfl
      | cons p rest =>
        obtain ⟨k, w⟩ := p
        simp [is_index_dict, is_species_dict] at h1 h2
        have hk1 := h1.2.1
        have hk2 := h2.2.1
        cases k <;> simp [isIntB, isStrB] at hk1 hk2
    | _ => simp [is_index_dict] at h1
  · rintro ⟨h1, h2⟩
    cases v <;> simp [is_index_dict] at h1 <;> simp [is_range_list] at h2
  · rintro ⟨h1, h2⟩
    cases v <;> simp [is_species_dict] at h1 <;> simp [is_range_list] at h2

/-- C3 (witness): the amended exclusivity at the concrete singleton
species-map `{"Fe": 5}`. -/
theorem classifiers_mutually_exclusive_witness :
    ¬(is_index_dict (.dict [(.str "Fe", .int 5)]) = true
        ∧ is_species_dict (.dict [(.str "Fe", .int 5)]) = true) :=
  (classifiers_mutually_exclusive (.dict [(.str "Fe", .int 5)]) (by simp)).1

/-- C1 (counterexample): the claim says an External spec with both `file`
and `string` (the literal) set raises the ambiguity error when `.structure`
is accessed; instead the property succeeds and uses the file (the
exclusivity check is commented out in `check_external`, and the property
only raises when all three sources are set). -/
theorem external_two_sources_no_ambiguity :
    ExternalStructure.structureProp
        { file := some "POSCAR", string := some "poscar text", code := Option.none }
      = .ok (.fromFile "POSCAR") :=
  rfl

/-- C1 (amended): accessing `.structure` raises the ambiguity error
(`must provide only one`) exactly when all three of `file`, `string`, `code`
are set (truthy), and raises the missing-source error (`must provide either`)
exactly when none is truthy; at validation time, `check_external` raises the
missing-source error exactly when no raw input value (including `mode`) is
truthy. -/
theorem external_source_error_characterization (m : ExternalStructure) (r : ExternalInput) :
    (m.structureProp = .error "Must provide only one of file, string, or code"
        ↔ (truthyStrOpt m.file = true ∧ truthyStrOpt m.string = true
            ∧ truthyStrOpt m.code = true))
      ∧ (m.structureProp = .error "Must provide either file, string, or code"
        ↔ (truthyStrOpt m.file = false ∧ truthyStrOpt m.string = false
            ∧ truthyStrOpt m.code = false))
      ∧ (check_external r = .error "Must provide either file, string, or code"
        ↔ (truthyStrOpt r.mode = false ∧ truthyStrOpt r.file = false
            ∧ truthyStrOpt r.string = false ∧ truthyStrOpt r.code = false)) := by
  refine ⟨?_, ?_, ?_⟩
  · cases hf : truthyStrOpt m.file <;> cases hs : truthyStrOpt m.string <;>
      cases hc : truthyStrOpt m.code <;>
      simp [ExternalStructure.structureProp, hf, hs, hc]
  · cases hf : truthyStrOpt m.file <;> cases hs : truthyStrOpt m.string <;>
      cases hc : truthyStrOpt m.code <;>
      simp [ExternalStructure.structureProp, hf, hs, hc]
  · cases hm : truthyStrOpt r.mode <;> cases hf : truthyStrOpt r.file <;>
      cases hs : truthyStrOpt r.string <;> cases hc : truthyStrOpt r.code <;>
      simp [check_external, hm, hf, hs, hc]

/-- C1 (witness): the characterization evaluated at a model with all three
sources set and at an empty raw input. -/
theorem external_source_error_characterization_witness :
    (ExternalStructure.structureProp
        { file := some "a", string := some "b", code := some "mp-1" }
      = .error "Must provide only one of file, string, or code")
      ∧ (check_external {} = .error "Must provide either file, string, or code") := by
  constructor
  · exact (external_source_error_characterization
      { file := some "a", string := some "b", code := some "mp-1" } {}).1.mpr
      ⟨rfl, rfl, rfl⟩
  · exact (external_source_error_characterization
      { file := some "a", string := some "b", code := some "mp-1" } {}).2.2.mpr
      ⟨rfl, rfl, rfl, rfl⟩

/-- C10: when at least one but not all three of `file`, `string`, `code` are
set, `.structure` succeeds and dispatches to the sources in fixed priority
order: the file if set, otherwise the string, otherwise the code. -/
theorem external_structure_priority_order (m : ExternalStructure)
    (h1 : (truthyStrOpt m.file || truthyStrOpt m.string || truthyStrOpt m.code) = true)
    (h2 : (truthyStrOpt m.file && truthyStrOpt m.string && truthyStrOpt m.code) = false) :
    m.structureProp = .ok
      (if truthyStrOpt m.file then .fromFile (m.file.getD "")
       else if truthyStrOpt m.string then .fromString (m.string.getD "")
       else .fromCode (m.code.getD "")) := by
  cases hf : truthyStrOpt m.file <;> cases hs : truthyStrOpt m.string <;>
    cases hc : truthyStrOpt m.code <;>
    simp [hf, hs, hc] at h1 h2 ⊢ <;>
    simp [ExternalStructure.structureProp, hf, hs, hc]

/-- C10 (witness): with `string` and `code` set but no `file`, the property
uses the string source. -/
theorem external_structure_priority_order_witness :
    ExternalStructure.structureProp
        { string := some "poscar text", code := some "mp-1" }
      = .ok (.fromString "poscar text") :=
  external_structure_priority_order
    { string := some "poscar text", code := some "mp-1" } rfl rfl

/-- The validation loop of `format_species` accepts every list of
string-keyed, integer-valued species-count maps. -/
theorem validateSpeciesDicts_map_ok (maps : List (String × Int)) :
    validateSpeciesDicts (maps.map (fun p => .dict [(.str p.1, .int p.2)])) = .ok () := by
  induction maps with
  | nil => rfl
  | cons p rest ih => simpa [validateSpeciesDicts, isStrB, isIntB] using ih

/-- The expansion loop of `format_species` on single-entry species-count maps
concatenates `count` copies of each symbol, in map order. -/
theorem expandSpeciesDicts_map (maps : List (String × Int)) :
    expandSpeciesDicts (maps.map (fun p => .dict [(.str p.1, .int p.2)]))
      = .ok ((maps.map (fun p => List.replicate p.2.toNat (.str p.1))).flatten) := by
  induction maps with
  | nil => rfl
  | cons p rest ih => simp [expandSpeciesDicts, ih, pyIntValue]

/-- `format_species` on a non-empty list of single-entry species-count maps
produces the flattened per-map replications. -/
theorem format_species_map_eq (p : String × Int) (rest : List (String × Int)) :
    format_species
        (.list ((p :: rest).map (fun q => PyVal.dict [(PyVal.str q.1, PyVal.int q.2)])))
      = .ok (((p :: rest).map
          (fun q => List.replicate q.2.toNat (PyVal.str q.1))).flatten) := by
  have hv := validateSpeciesDicts_map_ok (p :: rest)
  have he := expandSpeciesDicts_map (p :: rest)
  simp only [List.map_cons] at hv he ⊢
  simp only [format_species, isDictB]
  rw [hv]
  simpa only [Bind.bind, Except.bind] using he

/-- The total length of the expansion is the sum of the (non-negative)
counts. -/
theorem replicate_flatten_length (maps : List (String × Int))
    (hnn : ∀ p ∈ maps, 0 ≤ p.2) :
    (((maps.map (fun p => List.replicate p.2.toNat (PyVal.str p.1))).flatten.length : Int))
      = (maps.map (fun p => p.2)).sum := by
  induction maps with
  | nil => rfl
  | cons p rest ih =>
    have hp : (0 : Int) ≤ p.2 := hnn p (by simp)
    have ih2 := ih (fun q hq => hnn q (by simp [hq]))
    simp only [List.map_cons, List.flatten_cons, List.length_append,
      List.length_replicate, List.sum_cons]
    push_cast
    rw [Int.toNat_of_nonneg hp, ih2]

/-- C7: expanding a non-empty list of `{symbol: n}` species-count maps with
non-negative counts yields the concatenation of the individual expansions in
map order, with total length the sum of the counts; a single `{symbol: n}`
map expands to a flat list of length `n` all of whose elements equal the
symbol. -/
theorem format_species_expansion (maps : List (String × Int))
    (hne : maps ≠ []) (hnn : ∀ p ∈ maps, 0 ≤ p.2) :
    format_species
        (.list (maps.map (fun p => PyVal.dict [(PyVal.str p.1, PyVal.int p.2)])))
        = .ok ((maps.map (fun p => List.replicate p.2.toNat (PyVal.str p.1))).flatten)
      ∧ (((maps.map
            (fun p => List.replicate p.2.toNat (PyVal.str p.1))).flatten.length : Int)
          = (maps.map (fun p => p.2)).sum)
      ∧ ∀ s : String, ∀ n : Int, 0 ≤ n →
          ∃ l, format_species (.list [PyVal.dict [(PyVal.str s, PyVal.int n)]]) = .ok l
            ∧ (l.length : Int) = n ∧ ∀ x ∈ l, x = PyVal.str s := by
  refine ⟨?_, replicate_flatten_length maps hnn, ?_⟩
  · match maps, hne with
    | p :: rest, _ => exact format_species_map_eq p rest
  · intro s n hn
    refine ⟨List.replicate n.toNat (PyVal.str s), ?_, ?_, ?_⟩
    · have h := format_species_map_eq (s, n) []
      simpa using h
    · simp [Int.toNat_of_nonneg hn]
    · intro x hx
      exact List.eq_of_mem_replicate hx

/-- C7 (witness): the expansion of `[{Na: 2}, {Cl: 1}]`. -/
theorem format_species_expansion_witness :
    format_species (.list [.dict [(.str "Na", .int 2)], .dict [(.str "Cl", .int 1)]])
      = .ok [.str "Na", .str "Na", .str "Cl"] := by
  have h := (format_species_expansion [("Na", 2), ("Cl", 1)]
    (by simp) (by intro p hp; fin_cases hp <;> norm_num)).1
  simpa using h

/-- C7 (counterexample): the claim quantifies over every list of
species-count maps, but expanding the empty list hits `species[0]` and
raises `IndexError` instead of yielding the empty concatenation. -/
theorem format_species_empty_list_error :
    format_species (.list []) = .error "list index out of range" :=
  rfl

/-- C8: a valid Manual spec resolves to a structure with exactly as many
sites as coordinates and (expanded) species entries, and resolution succeeds
exactly when those two lengths agree — a mismatch always raises. -/
theorem manual_structure_site_count (m : ManualStructure) :
    (isOkE m.structureProp = (m.species.length == m.coords.length))
      ∧ ∀ st, m.structureProp = .ok st →
          st.sites.length = m.coords.length ∧ st.sites.length = m.species.length := by
  constructor
  · by_cases h : m.coords.length = m.species.length
    · simp [ManualStructure.structureProp, structure_from_lattice, h, isOkE]
    · simp [ManualStructure.structureProp, structure_from_lattice, h, isOkE]
      exact fun hh => h hh.symm
  · intro st hst
    by_cases h : m.coords.length = m.species.length
    · simp [ManualStructure.structureProp, structure_from_lattice, h] at hst
      subst hst
      simp [mkStructure, List.length_zip, h]
    · simp [ManualStructure.structureProp, structure_from_lattice, h] at hst

/-- C8 (witness): a concrete two-site rocksalt-style manual spec. -/
theorem manual_structure_site_count_witness :
    ∃ st, ManualStructure.structureProp
        { lattice := ⟨[[5, 0, 0], [0, 5, 0], [0, 0, 5]]⟩,
          coords := [(0, 0, 0), (1/2, 1/2, 1/2)],
          species := ["Na", "Cl"] }
      = .ok st ∧ st.sites.length = 2 := by
  refine ⟨⟨[{ species_string := "Na", properties := [] },
            { species_string := "Cl", properties := [] }]⟩, ?_, rfl⟩
  have h := (manual_structure_site_count
    { lattice := ⟨[[5, 0, 0], [0, 5, 0], [0, 0, 5]]⟩,
      coords := [(0, 0, 0), (1/2, 1/2, 1/2)],
      species := ["Na", "Cl"] }).2
  exact rfl

/-- Mode normalization on the canonical grid tags. -/
theorem check_mode_gamma : check_mode "gamma" = .ok "gamma" := rfl

/-- Mode normalization on the canonical Monkhorst tag. -/
theorem check_mode_monkhorst : check_mode "monkhorst" = .ok "monkhorst" := rfl

/-- `check_spacing` on a three-element iterable: rejects exactly when some
component is negative. -/
theorem check_spacing_arr3 (x y z : ℚ) :
    check_spacing (.arr [x, y, z])
      = if x < 0 ∨ y < 0 ∨ z < 0 then
          .error "Spacings must be all non-negative integer"
        else .ok (.arr [x, y, z]) := by
  simp only [check_spacing]
  have hlen : ¬([x, y, z].length ≠ 3) := by norm_num
  rw [if_neg hlen]
  by_cases h : x < 0 ∨ y < 0 ∨ z < 0
  · have hany : ([x, y, z].any (fun s => decide (s < 0))) = true := by
      rcases h with h | h | h <;> simp [List.any_cons, h]
    simp [hany, h]
  · push_neg at h
    have hany : ([x, y, z].any (fun s => decide (s < 0))) = false := by
      simp [List.any_cons, not_lt.mpr h.1, not_lt.mpr h.2.1, not_lt.mpr h.2.2]
    have hcond : ¬(x < 0 ∨ y < 0 ∨ z < 0) := by
      push_neg
      exact h
    simp [hany, hcond]

/-- The union typing of `BaseKpoints.spacing` on an integer triple. -/
theorem coerceSpacingUnion_ints (a b c : Int) :
    coerceSpacingUnion (.list [.int a, .int b, .int c])
      = .ok (.arr [(a : ℚ), (b : ℚ), (c : ℚ)]) :=
  rfl

/-- Negativity of the rational casts versus integer non-negativity. -/
theorem cast_triple_neg_iff (a b c : Int) :
    ((a : ℚ) < 0 ∨ (b : ℚ) < 0 ∨ (c : ℚ) < 0) ↔ ¬(0 ≤ a ∧ 0 ≤ b ∧ 0 ≤ c) := by
  simp only [Int.cast_lt_zero]
  omega

/-- The Gamma/Monkhorst `spacing` pipeline on an integer triple: tuple typing
passes and `check_spacing` accepts exactly the non-negative triples. -/
theorem validateGridSpacing_ints (a b c : Int) :
    validateGridSpacing (.list [.int a, .int b, .int c])
      = if 0 ≤ a ∧ 0 ≤ b ∧ 0 ≤ c then .ok (a, b, c)
        else .error "Spacings must be all non-negative integer" := by
  unfold validateGridSpacing
  have h1 : coerceInt3 (.list [.int a, .int b, .int c]) = .ok (a, b, c) := rfl
  rw [h1]
  simp only [Bind.bind, Except.bind]
  rw [check_spacing_arr3]
  by_cases h : 0 ≤ a ∧ 0 ≤ b ∧ 0 ≤ c
  · rw [if_pos h, if_neg (by rw [cast_triple_neg_iff]; simpa using h)]
  · rw [if_neg h, if_pos ((cast_triple_neg_iff a b c).mpr h)]

/-- `BaseKpoints.validate` on a gamma spec with an integer-triple spacing. -/
theorem BaseKpoints_validate_gamma_ints (a b c : Int) :
    BaseKpoints.validate
        { mode := some (.str "gamma"),
          spacing := some (.list [.int a, .int b, .int c]) }
      = if 0 ≤ a ∧ 0 ≤ b ∧ 0 ≤ c then
          .ok { mode := "gamma", spacing := .arr [(a : ℚ), (b : ℚ), (c : ℚ)] }
        else .error "Spacings must be all non-negative integer" := by
  unfold BaseKpoints.validate
  simp only [pyStr, check_mode_gamma, coerceSpacingUnion_ints, Bind.bind, Except.bind]
  rw [check_spacing_arr3]
  by_cases h : 0 ≤ a ∧ 0 ≤ b ∧ 0 ≤ c
  · rw [if_pos h, if_neg (by rw [cast_triple_neg_iff]; simpa using h)]
  · rw [if_neg h, if_pos ((cast_triple_neg_iff a b c).mpr h)]

/-- `BaseKpoints.validate` on a monkhorst spec with an integer-triple
spacing. -/
theorem BaseKpoints_validate_monkhorst_ints (a b c : Int) :
    BaseKpoints.validate
        { mode := some (.str "monkhorst"),
          spacing := some (.list [.int a, .int b, .int c]) }
      = if 0 ≤ a ∧ 0 ≤ b ∧ 0 ≤ c then
          .ok { mode := "monkhorst", spacing := .arr [(a : ℚ), (b : ℚ), (c : ℚ)] }
        else .error "Spacings must be all non-negative integer" := by
  unfold BaseKpoints.validate
  simp only [pyStr, check_mode_monkhorst, coerceSpacingUnion_ints, Bind.bind, Except.bind]
  rw [check_spacing_arr3]
  by_cases h : 0 ≤ a ∧ 0 ≤ b ∧ 0 ≤ c
  · rw [if_pos h, if_neg (by rw [cast_triple_neg_iff]; simpa using h)]
  · rw [if_neg h, if_pos ((cast_triple_neg_iff a b c).mpr h)]

/-- The full gamma pipeline on an integer triple. -/
theorem gamma_pipeline_ints (a b c : Int) :
    kpoints_model_from_dictionary
        { mode := some (.str "gamma"),
          spacing := some (.list [.int a, .int b, .int c]) }
      = if 0 ≤ a ∧ 0 ≤ b ∧ 0 ≤ c then
          .ok (KpModel.gamma (a, b, c) (0, 0, 0))
        else .error "Spacings must be all non-negative integer" := by
  unfold kpoints_model_from_dictionary
  rw [BaseKpoints_validate_gamma_ints]
  by_cases h : 0 ≤ a ∧ 0 ≤ b ∧ 0 ≤ c
  · rw [if_pos h, if_pos h]
    simp only [Bind.bind, Except.bind]
    unfold GammaKpoints.validate
    simp only [pyStr, check_mode_gamma, Bind.bind, Except.bind]
    rw [validateGridSpacing_ints, if_pos h]
  · rw [if_neg h, if_neg h]
    simp only [Bind.bind, Except.bind]

/-- The full monkhorst pipeline on an integer triple. -/
theorem monkhorst_pipeline_ints (a b c : Int) :
    kpoints_model_from_dictionary
        { mode := some (.str "monkhorst"),
          spacing := some (.list [.int a, .int b, .int c]) }
      = if 0 ≤ a ∧ 0 ≤ b ∧ 0 ≤ c then
          .ok (KpModel.monkhorst (a, b, c) (0, 0, 0))
        else .error "Spacings must be all non-negative integer" := by
  unfold kpoints_model_from_dictionary
  rw [BaseKpoints_validate_monkhorst_ints]
  by_cases h : 0 ≤ a ∧ 0 ≤ b ∧ 0 ≤ c
  · rw [if_pos h, if_pos h]
    simp only [Bind.bind, Except.bind]
    unfold MonkhorstKpoints.validate
    simp only [pyStr, check_mode_monkhorst, Bind.bind, Except.bind]
    rw [validateGridSpacing_ints, if_pos h]
  · rw [if_neg h, if_neg h]
    simp only [Bind.bind, Except.bind]

/-- `BaseKpoints.validate` on a gamma spec with a scalar integer spacing:
accepted exactly when non-negative. -/
theorem BaseKpoints_validate_gamma_scalar (z : Int) :
    BaseKpoints.validate { mode := some (.str "gamma"), spacing := some (.int z) }
      = if 0 ≤ z then .ok { mode := "gamma", spacing := .num (z : ℚ) }
        else .error "Spacing must be a non-negative integer" := by
  unfold BaseKpoints.validate
  simp only [pyStr, check_mode_gamma, Bind.bind, Except.bind, coerceSpacingUnion,
    check_spacing]
  by_cases h : 0 ≤ z
  · have hq : ¬((z : ℚ) < 0) := by exact_mod_cast not_lt.mpr h
    rw [if_neg hq, if_pos h]
  · have hq : ((z : ℚ) < 0) := by exact_mod_cast not_le.mp h
    rw [if_pos hq, if_neg h]

/-- `BaseKpoints.validate` on a monkhorst spec with a scalar integer
spacing. -/
theorem BaseKpoints_validate_monkhorst_scalar (z : Int) :
    BaseKpoints.validate { mode := some (.str "monkhorst"), spacing := some (.int z) }
      = if 0 ≤ z then .ok { mode := "monkhorst", spacing := .num (z : ℚ) }
        else .error "Spacing must be a non-negative integer" := by
  unfold BaseKpoints.validate
  simp only [pyStr, check_mode_monkhorst, Bind.bind, Except.bind, coerceSpacingUnion,
    check_spacing]
  by_cases h : 0 ≤ z
  · have hq : ¬((z : ℚ) < 0) := by exact_mod_cast not_lt.mpr h
    rw [if_neg hq, if_pos h]
  · have hq : ((z : ℚ) < 0) := by exact_mod_cast not_le.mp h
    rw [if_pos hq, if_neg h]

/-- The full gamma pipeline on a scalar integer spacing always fails: the
base model may accept the scalar, but the tuple annotation of the Gamma model
rejects it. -/
theorem gamma_pipeline_scalar (z : Int) :
    kpoints_model_from_dictionary
        { mode := some (.str "gamma"), spacing := some (.int z) }
      = if 0 ≤ z then .error "Input should be a valid tuple"
        else .error "Spacing must be a non-negative integer" := by
  unfold kpoints_model_from_dictionary
  rw [BaseKpoints_validate_gamma_scalar]
  by_cases h : 0 ≤ z
  · rw [if_pos h, if_pos h]
    simp only [Bind.bind, Except.bind]
    rfl
  · rw [if_neg h, if_neg h]
    simp only [Bind.bind, Except.bind]

/-- The full monkhorst pipeline on a scalar integer spacing always fails. -/
theorem monkhorst_pipeline_scalar (z : Int) :
    kpoints_model_from_dictionary
        { mode := some (.str "monkhorst"), spacing := some (.int z) }
      = if 0 ≤ z then .error "Input should be a valid tuple"
        else .error "Spacing must be a non-negative integer" := by
  unfold kpoints_model_from_dictionary
  rw [BaseKpoints_validate_monkhorst_scalar]
  by_cases h : 0 ≤ z
  · rw [if_pos h, if_pos h]
    simp only [Bind.bind, Except.bind]
    rfl
  · rw [if_neg h, if_neg h]
    simp only [Bind.bind, Except.bind]

/-- C2 (counterexample): the claim says Gamma/Monkhorst validation accepts a
single non-negative scalar spacing; but the full validation pipeline rejects
the gamma spec with scalar spacing `4` (the `IntArray3D` tuple annotation of
the Gamma model fails), even though base k-points validation accepts it. -/
theorem gamma_scalar_spacing_rejected :
    kpoints_model_from_dictionary
        { mode := some (.str "gamma"), spacing := some (.int 4) }
      = .error "Input should be a valid tuple"
    ∧ isOkE (BaseKpoints.validate
        { mode := some (.str "gamma"), spacing := some (.int 4) }) = true :=
  ⟨rfl, rfl⟩

/-- C2 (amended): Gamma and Monkhorst specs accept `spacing` only as a
3-vector of non-negative integers; negative components are fatal, and a bare
scalar — though accepted by the base k-points validator exactly when
non-negative — is always rejected by the Gamma/Monkhorst models. -/
theorem gamma_monkhorst_spacing_rules (a b c z : Int) :
    (isOkE (kpoints_model_from_dictionary
        { mode := some (.str "gamma"),
          spacing := some (.list [.int a, .int b, .int c]) })
      = decide (0 ≤ a ∧ 0 ≤ b ∧ 0 ≤ c))
    ∧ (isOkE (kpoints_model_from_dictionary
        { mode := some (.str "monkhorst"),
          spacing := some (.list [.int a, .int b, .int c]) })
      = decide (0 ≤ a ∧ 0 ≤ b ∧ 0 ≤ c))
    ∧ (isOkE (kpoints_model_from_dictionary
        { mode := some (.str "gamma"), spacing := some (.int z) }) = false)
    ∧ (isOkE (kpoints_model_from_dictionary
        { mode := some (.str "monkhorst"), spacing := some (.int z) }) = false)
    ∧ (isOkE (BaseKpoints.validate
        { mode := some (.str "gamma"), spacing := some (.int z) })
      = decide (0 ≤ z)) := by
  refine ⟨?_, ?_, ?_, ?_, ?_⟩
  · rw [gamma_pipeline_ints]
    by_cases h : 0 ≤ a ∧ 0 ≤ b ∧ 0 ≤ c <;> simp [h, isOkE]
  · rw [monkhorst_pipeline_ints]
    by_cases h : 0 ≤ a ∧ 0 ≤ b ∧ 0 ≤ c <;> simp [h, isOkE]
  · rw [gamma_pipeline_scalar]
    by_cases h : 0 ≤ z <;> simp [h, isOkE]
  · rw [monkhorst_pipeline_scalar]
    by_cases h : 0 ≤ z <;> simp [h, isOkE]
  · rw [BaseKpoints_validate_gamma_scalar]
    by_cases h : 0 ≤ z <;> simp [h, isOkE]

/-- C9: for every spec that validates, `requires_structure` is a pure
function of the normalized mode, true exactly for surface and autoline;
realizing those two modes without a structure is fatal while supplying one
succeeds; for the other three modes a supplied structure is accepted and has
no effect on the result. -/
theorem requires_structure_dispatch (d : KpDict) (m : KpModel)
    (h : kpoints_model_from_dictionary d = .ok m) :
    (m.requires_structure = true ↔ (m.mode = "surface" ∨ m.mode = "autoline"))
    ∧ (m.requires_structure = true →
        kpoints_from_dictionary d Option.none = .error "Kpoints model requires a structure"
        ∧ ∀ s, isOkE (kpoints_from_dictionary d (some s)) = true)
    ∧ (m.requires_structure = false →
        ∀ s, kpoints_from_dictionary d (some s) = kpoints_from_dictionary d Option.none) := by
  refine ⟨?_, ?_, ?_⟩
  · cases m <;> simp [KpModel.requires_structure, KpModel.mode]
  · intro hr
    constructor
    · unfold kpoints_from_dictionary
      rw [h]
      simp only [Bind.bind, Except.bind]
      simp [hr]
    · intro s
      unfold kpoints_from_dictionary
      rw [h]
      simp only [Bind.bind, Except.bind]
      cases m <;> simp [KpModel.requires_structure, KpModel.mode] at hr <;>
        simp [hr, KpModel.requires_structure, KpModel.mode,
          KpModel.kpointsWithArg, isOkE]
  · intro hr s
    unfold kpoints_from_dictionary
    rw [h]
    simp only [Bind.bind, Except.bind]
    simp [hr]

/-- C9 (witness): an autoline spec realized without a structure fails
fatally. -/
theorem requires_structure_dispatch_witness :
    kpoints_from_dictionary
        { mode := some (.str "autoline"), spacing := some (.int 20) } Option.none
      = .error "Kpoints model requires a structure" :=
  ((requires_structure_dispatch
      { mode := some (.str "autoline"), spacing := some (.int 20) }
      (KpModel.autoline 20) rfl).2.1 rfl).1

/-- A range dict that classifies positively has a `value` entry, so its
subscript succeeds. -/
theorem range_dict_value_subscript (es : List (PyVal × PyVal))
    (h : is_range_dict (.dict es) = .ok true) :
    ∃ x, pySubscript (.dict es) "value" = .ok x := by
  unfold is_range_dict pyContains at h
  simp only [Bind.bind, Except.bind] at h
  by_cases h1 : es.any (fun p => keyEqStr p.1 "start")
  · by_cases h2 : es.any (fun p => keyEqStr p.1 "stop")
    · cases hv : es.any (fun p => keyEqStr p.1 "value") with
      | false => simp [h1, h2, hv, pure, Except.pure] at h
      | true =>
        obtain ⟨p, hp, hkey⟩ := List.any_eq_true.mp hv
        have hsome : (es.find? (fun p => keyEqStr p.1 "value")).isSome := by
          rw [List.find?_isSome]
          exact ⟨p, hp, hkey⟩
        obtain ⟨q, hq⟩ := Option.isSome_iff_exists.mp hsome
        refine ⟨q.2, ?_⟩
        show (match lookupStrKey es "value" with
              | some x => Except.ok x
              | Option.none => Except.error "KeyError") = Except.ok q.2
        unfold lookupStrKey
        rw [hq]
        rfl
    · simp [h1, h2, pure, Except.pure] at h
  · simp [h1, pure, Except.pure] at h

/-- A list of dicts classifying as a range list supports extracting the
`value` field of every element. -/
theorem rangeDictAll_value_ok (l : List PyVal)
    (hd : ∀ e ∈ l, isDictB e = true) (h : rangeDictAll l = .ok true) :
    ∃ vals, subscriptValues l = .ok vals := by
  induction l with
  | nil => exact ⟨[], rfl⟩
  | cons e rest ih =>
    unfold rangeDictAll at h
    cases h1 : is_range_dict e with
    | error msg => simp [h1, Bind.bind, Except.bind] at h
    | ok be =>
      cases h2 : rangeDictAll rest with
      | error msg => simp [h1, h2, Bind.bind, Except.bind] at h
      | ok brest =>
        simp [h1, h2, Bind.bind, Except.bind, pure, Except.pure] at h
        have hbe : be = true := h.1
        have hbrest : brest = true := h.2
        subst hbe hbrest
        obtain ⟨xs, hxs⟩ := ih (fun x hx => hd x (by simp [hx])) h2
        have hde : isDictB e = true := hd e (by simp)
        obtain ⟨es, rfl⟩ : ∃ es, e = .dict es := by
          cases e <;> simp [isDictB] at hde
          exact ⟨_, rfl⟩
        obtain ⟨x, hx⟩ := range_dict_value_subscript es h1
        exact ⟨x :: xs,
          by simp [subscriptValues, hx, hxs, Bind.bind, Except.bind, pure, Except.pure]⟩

/-- C4 (counterexample): the claim says `is_collinear` returns `false` iff
all values are fixed-length lists of equal length; but on a species map
whose values are lists of different lengths it still returns `false` (the
code never compares list lengths). -/
theorem collinear_false_unequal_lengths :
    is_collinear
        (.dict [(.str "Ti", .list [.int 1]), (.str "O", .list [.int 1, .int 2])])
      = .ok false
    ∧ spec_values_equal_length_lists
        (.dict [(.str "Ti", .list [.int 1]), (.str "O", .list [.int 1, .int 2])])
      = false :=
  ⟨rfl, rfl⟩

/-- C4 (amended): for entries classified as index/species maps,
`is_collinear` returns `true` iff all values are scalar, returns `false` iff
the values are not all scalar but all lists (of any lengths — equal lengths
are never required), and raises iff the values are neither all scalar nor
all lists; for range lists made of mappings the same trichotomy applies to
the extracted `value` fields; an entry matching no shape always raises. -/
theorem is_collinear_characterization (v : PyVal) :
    ((is_index_dict v || is_species_dict v) = true →
        (is_collinear v = .ok true ↔ (dictValues v).all isNumB = true)
        ∧ (is_collinear v = .ok false ↔
            ((dictValues v).all isNumB = false ∧ (dictValues v).all isListB = true))
        ∧ ((∃ msg, is_collinear v = .error msg) ↔
            ((dictValues v).all isNumB = false ∧ (dictValues v).all isListB = false)))
    ∧ (∀ l, v = .list l → (∀ e ∈ l, isDictB e = true) →
        is_range_list v = .ok true →
        ∃ vals, subscriptValues l = .ok vals
          ∧ (is_collinear v = .ok true ↔ vals.all isNumB = true)
          ∧ (is_collinear v = .ok false ↔
              (vals.all isNumB = false ∧ vals.all isListB = true))
          ∧ ((∃ msg, is_collinear v = .error msg) ↔
              (vals.all isNumB = false ∧ vals.all isListB = false)))
    ∧ ((is_index_dict v || is_species_dict v) = false →
        is_range_list v ≠ .ok true → ∃ msg, is_collinear v = .error msg) := by
  refine ⟨?_, ?_, ?_⟩
  · intro hcond
    unfold is_collinear
    rw [if_pos hcond]
    cases hnum : (dictValues v).all isNumB <;>
      cases hlist : (dictValues v).all isListB <;> simp [hnum, hlist]
  · rintro l rfl hd hr
    have hr' : rangeDictAll l = .ok true := hr
    obtain ⟨vals, hvals⟩ := rangeDictAll_value_ok l hd hr'
    refine ⟨vals, hvals, ?_⟩
    have hgoal : is_collinear (.list l)
        = (if vals.all isNumB then .ok true
           else if vals.all isListB then .ok false
           else .error "Magnetic moments is improperly formatted") := by
      unfold is_collinear
      simp only [is_index_dict, is_species_dict, Bool.or_self, Bool.false_eq_true,
        if_false, Bind.bind, Except.bind, is_range_list, hr', listItems, hvals,
        if_true, pure, Except.pure]
    rw [hgoal]
    cases hnum : vals.all isNumB <;> cases hlist : vals.all isListB <;>
      simp [hnum, hlist]
  · intro hcond hr
    unfold is_collinear
    rw [hcond]
    cases hrl : is_range_list v with
    | error msg =>
      exact ⟨msg, by simp [hrl, Bind.bind, Except.bind]⟩
    | ok b =>
      cases b with
      | true => exact absurd hrl hr
      | false =>
        exact ⟨"Magnetic moments is improperly formatted",
          by simp [hrl, Bind.bind, Except.bind]⟩

/-- C4 (witness): the trichotomy at the concrete collinear species map
`{"Ti": 2.0, "O": 0.0}`. -/
theorem is_collinear_characterization_witness :
    is_collinear (.dict [(.str "Ti", .float 2), (.str "O", .float 0)]) = .ok true :=
  ((is_collinear_characterization
      (.dict [(.str "Ti", .float 2), (.str "O", .float 0)])).1 rfl).1.mpr rfl

/-- Updating one position never changes the number of sites. -/
theorem modifyNth_length {α : Type} (l : List α) (n : Nat) (f : α → α) :
    (modifyNth l n f).length = l.length := by
  induction l generalizing n with
  | nil => rfl
  | cons x rest ih =>
    cases n with
    | zero => rfl
    | succ n => simp [modifyNth, ih]

/-- Species assignment preserves the number of sites. -/
theorem assign_by_species_length (st : PStructure) (sp name : String) (v : PyVal) :
    (assign_site_property_by_species st sp name v).sites.length = st.sites.length := by
  simp [assign_site_property_by_species]

/-- Index assignment preserves the number of sites. -/
theorem assign_by_index_length (st : PStructure) (i : Int) (name : String)
    (v : PyVal) (st' : PStructure)
    (h : assign_site_property_by_index st i name v = .ok st') :
    st'.sites.length = st.sites.length := by
  unfold assign_site_property_by_index at h
  cases hp : pyIndex st.sites.length i with
  | error msg => simp [hp, Bind.bind, Except.bind] at h
  | ok j =>
    simp [hp, Bind.bind, Except.bind, pure, Except.pure] at h
    subst h
    simp [modifyNth_length]

/-- A fold of single-position updates preserves the number of sites. -/
theorem foldl_modify_length (idxs : List Nat) (sites : List Site)
    (f : Site → Site) :
    (idxs.foldl (fun s i => modifyNth s i f) sites).length = sites.length := by
  induction idxs generalizing sites with
  | nil => rfl
  | cons i rest ih => simp [List.foldl_cons, ih, modifyNth_length]

/-- Range assignment preserves the number of sites. -/
theorem assign_by_range_length (st : PStructure) (sl : PySlice) (name : String)
    (v : PyVal) (st' : PStructure)
    (h : assign_site_property_by_range st sl name v = .ok st') :
    st'.sites.length = st.sites.length := by
  unfold assign_site_property_by_range at h
  cases ha : asSliceIdx sl.start with
  | error m => simp [ha, Bind.bind, Except.bind] at h
  | ok a =>
    cases hb : asSliceIdx sl.stop with
    | error m => simp [ha, hb, Bind.bind, Except.bind] at h
    | ok b =>
      cases hc : asSliceIdx sl.step with
      | error m => simp [ha, hb, hc, Bind.bind, Except.bind] at h
      | ok c =>
        cases hi : sliceIndices st.sites.length a b c with
        | error m => simp [ha, hb, hc, hi, Bind.bind, Except.bind] at h
        | ok idxs =>
          simp [ha, hb, hc, hi, Bind.bind, Except.bind, pure, Except.pure] at h
          subst h
          simp [foldl_modify_length]

/-- One index-assignment step preserves the number of sites. -/
theorem indexStep_length (st : PStructure) (p : PyVal × PyVal) (st' : PStructure)
    (h : indexStep st p = .ok st') : st'.sites.length = st.sites.length :=
  assign_by_index_length st (pyIndexKey p.1) "magmom" p.2 st' h

/-- One range-assignment step preserves the number of sites. -/
theorem rangeStep_length (st : PStructure) (rd : PyVal) (st' : PStructure)
    (h : rangeStep st rd = .ok st') : st'.sites.length = st.sites.length := by
  unfold rangeStep at h
  cases ha : pySubscript rd "start" with
  | error m => rw [ha] at h; simp [Bind.bind, Except.bind] at h
  | ok sv =>
    rw [ha] at h
    simp only [Bind.bind, Except.bind] at h
    cases hb : pySubscript rd "stop" with
    | error m => rw [hb] at h; simp at h
    | ok tv =>
      rw [hb] at h
      cases hc : pyGetOpt rd "step" with
      | error m => rw [hc] at h; simp at h
      | ok ev =>
        rw [hc] at h
        cases hd : pySubscript rd "value" with
        | error m => rw [hd] at h; simp at h
        | ok vv =>
          rw [hd] at h
          exact assign_by_range_length st ⟨sv, tv, ev⟩ "magmom" vv st' h

/-- A monadic fold of length-preserving steps preserves the number of
sites. -/
theorem foldlM_preserves_length {α : Type}
    (f : PStructure → α → Except String PStructure)
    (hf : ∀ st a st', f st a = .ok st' → st'.sites.length = st.sites.length)
    (l : List α) :
    ∀ st st' : PStructure, l.foldlM f st = .ok st' →
      st'.sites.length = st.sites.length := by
  induction l with
  | nil =>
    intro st st' h
    rw [List.foldlM_nil] at h
    simp only [pure, Except.pure, Except.ok.injEq] at h
    rw [h]
  | cons a rest ih =>
    intro st st' h
    rw [List.foldlM_cons] at h
    cases h1 : f st a with
    | error m => rw [h1] at h; simp [Bind.bind, Except.bind] at h
    | ok st1 =>
      rw [h1] at h
      simp only [Bind.bind, Except.bind] at h
      exact (ih st1 st' h).trans (hf st a st1 h1)

/-- The species-dict assignment fold preserves the number of sites. -/
theorem foldl_species_length (entries : List (PyVal × PyVal)) (st : PStructure) :
    (entries.foldl speciesStep st).sites.length = st.sites.length := by
  induction entries generalizing st with
  | nil => rfl
  | cons p rest ih =>
    simp only [List.foldl_cons]
    rw [ih]
    exact assign_by_species_length st (pyStrKey p.1) "magmom" p.2

/-- The per-site read-back of `format_magnetic_moments` always has one entry
per site of the structure it was given. -/
theorem format_magnetic_moments_length (entry : PyVal) (st : PStructure)
    (missing : PyVal) (ms : List PyVal)
    (h : format_magnetic_moments entry st missing = .ok ms) :
    ms.length = st.sites.length := by
  unfold format_magnetic_moments at h
  cases h1 : (if is_index_dict entry then
      (dictEntries entry).foldlM indexStep st else .ok st) with
  | error m => rw [h1] at h; simp at h
  | ok st1 =>
    have hlen1 : st1.sites.length = st.sites.length := by
      by_cases hid : is_index_dict entry
      · rw [if_pos hid] at h1
        exact foldlM_preserves_length indexStep indexStep_length
          (dictEntries entry) st st1 h1
      · rw [if_neg hid] at h1
        simp only [Except.ok.injEq] at h1
        rw [h1]
    rw [h1] at h
    simp only at h
    set st2 := if is_species_dict entry then
        (dictEntries entry).foldl speciesStep st1
      else st1 with hst2
    have hlen2 : st2.sites.length = st.sites.length := by
      rw [hst2]
      by_cases hsd : is_species_dict entry
      · rw [if_pos hsd, foldl_species_length]
        exact hlen1
      · rw [if_neg hsd]
        exact hlen1
    cases h2 : is_range_list entry with
    | error m => rw [h2] at h; simp at h
    | ok rl =>
      rw [h2] at h
      simp only at h
      cases rl with
      | false =>
        simp only [Bool.false_eq_true, if_false, Except.ok.injEq] at h
        rw [← h]
        simp [site_properties_from_structure, hlen2]
      | true =>
        simp only [if_true] at h
        cases h3 : (listItems entry).foldlM rangeStep st2 with
        | error m => rw [h3] at h; simp at h
        | ok st3 =>
          rw [h3] at h
          simp only [Except.ok.injEq] at h
          have hlen3 := foldlM_preserves_length rangeStep rangeStep_length
            (listItems entry) st2 st3 h3
          rw [← h]
          simp [site_properties_from_structure, hlen3, hlen2]

/-- Inserting a key that is absent appends the pair at the end. -/
theorem dictSetS_fresh (d : List (String × PyVal)) (k : String) (v : PyVal)
    (h : ∀ p ∈ d, p.1 ≠ k) : dictSetS d k v = d ++ [(k, v)] := by
  unfold dictSetS
  have hany : d.any (fun p => p.1 == k) = false := by
    rw [List.any_eq_false]
    intro p hp
    simp [h p hp]
  simp [hany]

/-- When the uppercased keys are pairwise distinct, the uppercasing fold is
an ordinary map. -/
theorem upperKeys_aux (d : List (String × PyVal)) :
    ∀ acc : List (String × PyVal),
      (∀ p ∈ d, ∀ q ∈ acc, q.1 ≠ pyUpper p.1) →
      (d.map (fun p => pyUpper p.1)).Nodup →
      d.foldl (fun acc p => dictSetS acc (pyUpper p.1) p.2) acc
        = acc ++ d.map (fun p => (pyUpper p.1, p.2)) := by
  induction d with
  | nil =>
    intro acc _ _
    simp
  | cons p rest ih =>
    intro acc hfresh hnodup
    simp only [List.foldl_cons]
    rw [dictSetS_fresh acc (pyUpper p.1) p.2 (fun q hq => hfresh p (by simp) q hq)]
    have hhead : pyUpper p.1 ∉ rest.map (fun q => pyUpper q.1) :=
      (List.nodup_cons.mp (by simpa using hnodup)).1
    rw [ih (acc ++ [(pyUpper p.1, p.2)]) ?_ (List.nodup_cons.mp (by simpa using hnodup)).2]
    · simp
    · intro p' hp' q hq
      rcases List.mem_append.mp hq with hq | hq
      · exact hfresh p' (by simp [hp']) q hq
      · have hq' : q = (pyUpper p.1, p.2) := by simpa using hq
        subst hq'
        show pyUpper p.1 ≠ pyUpper p'.1
        intro hcontra
        exact hhead (by
          rw [hcontra]
          exact List.mem_map_of_mem _ hp')

/-- `upperKeys` is a plain key-uppercasing map whenever the uppercased keys
are pairwise distinct. -/
theorem upperKeys_eq_map (d : List (String × PyVal))
    (hnodup : (d.map (fun p => pyUpper p.1)).Nodup) :
    upperKeys d = d.map (fun p => (pyUpper p.1, p.2)) := by
  have h := upperKeys_aux d [] (by simp) hnodup
  simpa [upperKeys] using h

/-- C5 (counterexample): the claim says the magnetic-moment key is popped and
expanded whenever present; but a present-but-falsy entry (here the empty
mapping, which `is_valid_magmom_entry` accepts as a valid entry) is passed
through unexpanded: the result still maps `MAGMOM` to the raw empty dict
instead of a per-site list. -/
theorem format_incar_falsy_magmom_not_expanded :
    format_incar_dict [("magmom", PyVal.dict [])]
        ⟨[{ species_string := "Fe", properties := [] }]⟩ (.int 0)
      = .ok [("MAGMOM", PyVal.dict [])]
    ∧ is_valid_magmom_entry (PyVal.dict []) = .ok true :=
  ⟨rfl, rfl⟩

/-- C5 (amended): when the `magmom` key is present with a truthy value,
formatting pops it, expands it against the structure into a full per-site
list (one entry per site, unset sites filled with the `missing` default),
re-inserts the expanded list at the end under the canonical uppercase key,
and uppercases every remaining key, passing the values through unchanged. -/
theorem format_incar_dict_expansion (d : List (String × PyVal)) (st : PStructure)
    (missing v : PyVal) (ms : List PyVal)
    (hnodup : (d.map (fun p => pyUpper p.1)).Nodup)
    (hget : dictGetS d "magmom" = some v)
    (htruthy : pyTruthy v = true)
    (hfm : format_magnetic_moments v st missing = .ok ms) :
    ∃ r, format_incar_dict d st missing = .ok r
      ∧ r = upperKeys (dictSetS (dictPopS d "magmom") "magmom" (.list ms))
      ∧ ("MAGMOM", PyVal.list ms) ∈ r
      ∧ ms.length = st.sites.length
      ∧ ∀ k w, (k, w) ∈ d → k ≠ "magmom" → (pyUpper k, w) ∈ r := by
  have hMM : pyUpper "magmom" = "MAGMOM" := rfl
  have heq : format_incar_dict d st missing
      = .ok (upperKeys (dictSetS (dictPopS d "magmom") "magmom" (.list ms))) := by
    unfold format_incar_dict
    rw [hget]
    simp only [htruthy, if_true, hfm]
  -- the entry that `dictGetS` found
  obtain ⟨entry, hfind, hval⟩ :
      ∃ entry, d.find? (fun p => p.1 == "magmom") = some entry ∧ entry.2 = v := by
    unfold dictGetS at hget
    rcases hh : d.find? (fun p => p.1 == "magmom") with _ | entry
    · rw [hh] at hget
      simp at hget
    · rw [hh] at hget
      simp at hget
      exact ⟨entry, hh, hget⟩
  have hmag_mem : entry ∈ d := List.mem_of_find?_eq_some hfind
  have hmag_key : entry.1 = "magmom" := by
    have := List.find?_some hfind
    simpa using this
  -- the popped dict and the re-inserted magmom entry
  have hfresh : ∀ p ∈ dictPopS d "magmom", p.1 ≠ "magmom" := by
    intro p hp
    unfold dictPopS at hp
    have := (List.mem_filter.mp hp).2
    simpa using this
  have hset : dictSetS (dictPopS d "magmom") "magmom" (.list ms)
      = dictPopS d "magmom" ++ [("magmom", .list ms)] :=
    dictSetS_fresh _ _ _ hfresh
  -- distinctness of uppercased keys after the pop and re-insert
  have hsub : ((dictPopS d "magmom").map (fun p => pyUpper p.1)).Sublist
      (d.map (fun p => pyUpper p.1)) :=
    List.Sublist.map _ (List.filter_sublist d)
  have hnodup' : ((dictPopS d "magmom").map (fun p => pyUpper p.1)).Nodup :=
    hnodup.sublist hsub
  have hnotmem : "MAGMOM" ∉ (dictPopS d "magmom").map (fun p => pyUpper p.1) := by
    intro hmem
    obtain ⟨q, hq, hq2⟩ := List.mem_map.mp hmem
    have hqd : q ∈ d := (List.mem_filter.mp hq).1
    have hqk : q.1 ≠ "magmom" := hfresh q hq
    have hinj := List.inj_on_of_nodup_map hnodup
    have hq_entry : q = entry := by
      apply hinj hqd hmag_mem
      rw [hq2, hmag_key, hMM]
    exact hqk (by rw [hq_entry, hmag_key])
  have hnodup'' : ((dictPopS d "magmom" ++ [("magmom", PyVal.list ms)]).map
      (fun p => pyUpper p.1)).Nodup := by
    rw [List.map_append]
    refine List.Nodup.append hnodup' (by simp) ?_
    intro x hx hy
    have hxMM : x = "MAGMOM" := by simpa [hMM] using hy
    rw [hxMM] at hx
    exact hnotmem hx
  have hr : upperKeys (dictSetS (dictPopS d "magmom") "magmom" (.list ms))
      = (dictPopS d "magmom" ++ [("magmom", PyVal.list ms)]).map
          (fun p => (pyUpper p.1, p.2)) := by
    rw [hset]
    exact upperKeys_eq_map _ hnodup''
  refine ⟨_, heq, rfl, ?_, format_magnetic_moments_length v st missing ms hfm, ?_⟩
  · rw [hr]
    refine List.mem_map.mpr ⟨("magmom", PyVal.list ms), ?_, rfl⟩
    simp
  · intro k w hkw hkne
    rw [hr]
    refine List.mem_map.mpr ⟨(k, w), ?_, rfl⟩
    refine List.mem_append.mpr (Or.inl ?_)
    unfold dictPopS
    rw [List.mem_filter]
    exact ⟨hkw, by simpa using hkne⟩

/-- C5 (witness): the expansion of `{"magmom": {0: 2.0}, "encut": 520}`
against a two-site structure with default `0`. -/
theorem format_incar_dict_expansion_witness :
    ∃ r, format_incar_dict
        [("magmom", PyVal.dict [(.int 0, .float 2)]), ("encut", .int 520)]
        ⟨[{ species_string := "Fe", properties := [] },
          { species_string := "O", properties := [] }]⟩ (.int 0)
      = .ok r
      ∧ ("MAGMOM", PyVal.list [.float 2, .int 0]) ∈ r
      ∧ ("ENCUT", PyVal.int 520) ∈ r := by
  obtain ⟨r, h1, _, h3, _, h5⟩ := format_incar_dict_expansion
    [("magmom", PyVal.dict [(.int 0, .float 2)]), ("encut", .int 520)]
    ⟨[{ species_string := "Fe", properties := [] },
      { species_string := "O", properties := [] }]⟩
    (.int 0) (PyVal.dict [(.int 0, .float 2)]) [.float 2, .int 0]
    (by decide) rfl rfl rfl
  exact ⟨r, h1, h3, h5 "encut" (.int 520) (by simp) (by simp)⟩

end Abvio
